import Mathlib

/-!
Verification of the device-configuration layer of a WireGuard netlink client
(`src/socket/socket.rs`).  The transport (neli sockets) is external; it is
modelled as explicit response streams handed to the functions, and the
messages an operation hands to the transport are collected in a `sent` field
of the result.  Machine integers are modelled as `Nat`; attribute payloads of
the codec are modelled at the level of already-decoded values, since the
attribute codec is an external collaborator of this layer.
-/

/-- `IFNAMSIZ` from libc on Linux. -/
def IFNAMSIZ : Nat := 16

/-- One CIDR entry of a peer (read model).
Modelled from the spec: the read-model data types live in `src/get.rs`,
which is not under `src/`; section 3 gives the fields. -/
structure AllowedIp where
  family : Nat
  addr : List Nat
  cidr_mask : Nat
deriving DecidableEq

/-- A peer of the device (read model).
Modelled from the spec: the read-model data types live in `src/get.rs`,
which is not under `src/`; section 3 gives the fields.  The public key is
the peer identity used by the continuation merge. -/
structure Peer where
  public_key : List Nat
  preshared_key : Option (List Nat)
  endpoint : Option (List Nat × Nat)
  persistent_keepalive_interval : Nat
  last_handshake_time : Nat
  rx_bytes : Nat
  tx_bytes : Nat
  protocol_version : Nat
  allowed_ips : List AllowedIp
deriving DecidableEq

/-- The device snapshot (read model).
Modelled from the spec: the read-model data types live in `src/get.rs`,
which is not under `src/`; section 3 gives the fields. -/
structure Device where
  ifindex : Nat
  ifname : String
  private_key : Option (List Nat)
  public_key : Option (List Nat)
  listen_port : Nat
  fwmark : Nat
  peers : List Peer
deriving DecidableEq

/-- The already attribute-decoded content of one dump-response payload: the
top-level device attributes plus the peer list the payload carries.  Decoding
raw bytes into this shape is the job of the external transport and codec; a
transport-level decode failure is the `Except.error` case of the response
stream below. -/
structure DevicePayload where
  ifindex : Nat
  ifname : String
  private_key : Option (List Nat)
  public_key : Option (List Nat)
  listen_port : Nat
  fwmark : Nat
  peers : List Peer
deriving DecidableEq

/-- Parse the first payload as the full device.
Modelled from the spec: `parse_device` lives in `src/socket/parse.rs`, which
is not under `src/`; section 4.2 says the first payload yields all top-level
device attributes plus any peers present. -/
def parse_device (p : DevicePayload) : Device :=
  { ifindex := p.ifindex, ifname := p.ifname, private_key := p.private_key,
    public_key := p.public_key, listen_port := p.listen_port,
    fwmark := p.fwmark, peers := p.peers }

/-- Merge the peer list of a subsequent payload into the running snapshot.
Modelled from the spec: `extend_device` lives in `src/socket/parse.rs`, which
is not under `src/`; section 4.2: if the first incoming peer shares the
public key of the last peer of the snapshot, its allowed-IP entries continue
that peer (append, no duplicate peer record); otherwise the incoming peers
are appended as new. -/
def coalesce_peers (snapshot incoming : List Peer) : List Peer :=
  match snapshot.getLast?, incoming with
  | some lastPeer, first :: rest =>
    if first.public_key = lastPeer.public_key then
      snapshot.dropLast ++
        ({ lastPeer with allowed_ips := lastPeer.allowed_ips ++ first.allowed_ips } :: rest)
    else
      snapshot ++ incoming
  | _, _ => snapshot ++ incoming

/-- Modelled from the spec: `extend_device` of `src/socket/parse.rs` (not
under `src/`), section 4.2 — a subsequent payload contributes only the peer
list it contains; the top-level device attributes of the snapshot stay. -/
def extend_device (d : Device) (p : DevicePayload) : Device :=
  { d with peers := coalesce_peers d.peers p.peers }

/-- The variants of `DeviceInterface` (crate root, not under `src/`), as used
by `Socket::get_device` lines 53-65: a name or a `u32` index. -/
inductive DeviceInterface where
  | name (s : String)
  | index (i : Nat)
deriving DecidableEq

/-- Errors of `get_device` constructed in `socket.rs`: the local name
validation error (line 57) and the access error (lines 98 and 110). -/
inductive GetDeviceError where
  | invalidInterfaceName
  | accessError
deriving DecidableEq

/-- Netlink message flags used by the requests (lines 75 and 142). -/
inductive NlmF where
  | request
  | ack
  | dump
deriving DecidableEq

/-- Generic-netlink command of the request (line 67). -/
inductive WgCmd where
  | getDevice
  | setDevice
deriving DecidableEq

/-- The single attribute the get request carries (lines 53-65). -/
inductive WgAttrVal where
  | ifname (name : String)
  | ifindex (i : Nat)
deriving DecidableEq

/-- The request message built in `get_device` lines 66-80: netlink type is
the resolved family id, flags Request+Ack+Dump, command GetDevice, one
attribute naming the interface. -/
structure NlRequest where
  nl_type : Nat
  flags : List NlmF
  cmd : WgCmd
  attr : WgAttrVal
deriving DecidableEq

def wgGetRequest (family_id : Nat) (attr : WgAttrVal) : NlRequest :=
  { nl_type := family_id, flags := [.request, .ack, .dump],
    cmd := .getDevice, attr := attr }

/-- One message of the dump response stream, after transport decode: the
kernel Error marker, the Done marker, or a device payload (the catch-all
`_ => ()` arm of lines 97-101 treats every other message type as payload). -/
inductive NlResponse where
  | errorMarker
  | done
  | payload (p : DevicePayload)
deriving DecidableEq

/-- The session owned by `Socket` (lines 21-24): the generic-netlink socket
handle and the resolved family id.  Handles are abstract `Nat` tokens. -/
structure Session where
  sock : Nat
  family_id : Nat
deriving DecidableEq

def exceptDecEq {ε α : Type} [DecidableEq ε] [DecidableEq α] :
    (a b : Except ε α) → Decidable (a = b)
  | .error x, .error y =>
    match decEq x y with
    | .isTrue h => .isTrue (congrArg Except.error h)
    | .isFalse h => .isFalse (fun hc => h (Except.error.inj hc))
  | .error _, .ok _ => .isFalse (fun hc => Except.noConfusion hc)
  | .ok _, .error _ => .isFalse (fun hc => Except.noConfusion hc)
  | .ok x, .ok y =>
    match decEq x y with
    | .isTrue h => .isTrue (congrArg Except.ok h)
    | .isFalse h => .isFalse (fun hc => h (Except.ok.inj hc))

instance {ε α : Type} [DecidableEq ε] [DecidableEq α] : DecidableEq (Except ε α) :=
  exceptDecEq

/-- `device.ok_or(GetDeviceError::AccessError)`, line 110. -/
def finish_dump : Option Device → Except GetDeviceError Device
  | some d => .ok d
  | none => .error .accessError

/-- The response loop of `get_device`, lines 95-110.  The stream element
`Except.error e` models `iter.next()` returning `Some(Err(e))`: the
`while let Some(Ok(response))` pattern then exits the loop, exactly like
stream exhaustion (`None`), and line 110 runs on whatever was accumulated. -/
def run_dump (dev : Option Device) : List (Except Nat NlResponse) → Except GetDeviceError Device
  | [] => finish_dump dev
  | r :: rest =>
    match r with
    | .error _ => finish_dump dev
    | .ok .errorMarker => .error .accessError
    | .ok .done => finish_dump dev
    | .ok (.payload p) =>
      match dev with
      | some d => run_dump (some (extend_device d p)) rest
      | none => run_dump (some (parse_device p)) rest

/-- The result of a `get_device` call: the requests handed to the transport
and the returned value. -/
structure GetResult where
  sent : List NlRequest
  result : Except GetDeviceError Device
deriving DecidableEq

/-- `Socket::get_device`, lines 48-111.  For a name, line 53-57 validates
`0 < len && len < IFNAMSIZ` (Rust `str::len` is the byte length) and fails
with `InvalidInterfaceName` before anything is sent; then the request of
lines 66-82 is sent and the response loop runs on the stream. -/
def get_device (s : Session) (iface : DeviceInterface)
    (rs : List (Except Nat NlResponse)) : GetResult :=
  match iface with
  | .name name =>
    if 0 < name.utf8ByteSize ∧ name.utf8ByteSize < IFNAMSIZ then
      { sent := [wgGetRequest s.family_id (.ifname name)], result := run_dump none rs }
    else
      { sent := [], result := .error .invalidInterfaceName }
  | .index i =>
    { sent := [wgGetRequest s.family_id (.ifindex i)], result := run_dump none rs }

example :
    (get_device ⟨0, 7⟩ (.name "wg0") [Except.ok .done]).sent =
      [wgGetRequest 7 (.ifname "wg0")] := by decide

example :
    (get_device ⟨0, 7⟩ (.name "") [Except.ok .done]).result =
      .error .invalidInterfaceName := by decide

example :
    (get_device ⟨0, 7⟩ (.index 4) [Except.ok .errorMarker]).result =
      .error .accessError := by decide

/-- Errors of `set_device` as constructed in `socket.rs` lines 113-120: a
failure of `create_set_device_messages` (line 114), or a transport error of
`send_nl`/`recv_ack` converted by `?` (lines 115-116).  The `?` conversion
receives only the transport error value; the loop index is not part of it. -/
inductive SetDeviceError where
  | createMessagesError (e : Nat)
  | nlError (e : Nat)
deriving DecidableEq

/-- The loop of `set_device`, lines 114-117: send a message, then block on
its acknowledgment; `?` on a failed acknowledgment returns at once.  The
acknowledgment outcomes are an oracle indexed by message position; planned
messages are opaque tokens, since `create_set_device_messages` lives in
`src/set.rs` which is not under `src/`.  Returns the messages actually
handed to the transport, in order, and the call result. -/
def set_device_loop (acks : Nat → Except Nat Unit) :
    Nat → List Nat → List Nat × Except SetDeviceError Unit
  | _, [] => ([], .ok ())
  | k, m :: rest =>
    match acks k with
    | .error e => ([m], .error (.nlError e))
    | .ok _ =>
      let r := set_device_loop acks (k + 1) rest
      (m :: r.1, r.2)

/-- `Socket::set_device`, lines 113-120.  `plan` is the outcome of
`create_set_device_messages` (in `src/set.rs`, not under `src/`): either a
planning error or the ordered message list. -/
def set_device (plan : Except Nat (List Nat)) (acks : Nat → Except Nat Unit) :
    List Nat × Except SetDeviceError Unit :=
  match plan with
  | .error e => ([], .error (.createMessagesError e))
  | .ok msgs => set_device_loop acks 0 msgs

/-- Netlink protocol families used when opening sockets (`NlFamily` of the
transport): `Socket::connect` uses the generic family (lines 29 and 35), the
route-netlink operations use the route family (lines 149, 178, 185). -/
inductive NlFamily where
  | generic
  | route
deriving DecidableEq

/-- Observable shape of one route-netlink call made by a `Socket` method:
the session value after the call (the methods take the session immutably),
the freshly opened sockets in order, and the call result. -/
structure RouteCall (α : Type) where
  session : Session
  opened : List NlFamily
  result : α
deriving DecidableEq

/-- Link operations of `link_message` (line 179 and 186). -/
inductive WireGuardDeviceLinkOperation where
  | add
  | delete
deriving DecidableEq

/-- The route-netlink link request sent by `add_device`/`del_device`.
Modelled from the spec: the `link_message` builder is not under `src/`;
section 4.4 — a link-create/link-delete request carrying the interface
name. -/
structure LinkMsg where
  ifname : String
  op : WireGuardDeviceLinkOperation
deriving DecidableEq

/-- `LinkDeviceError` as used by lines 177-189: a transport or
acknowledgment failure converted by `?`. -/
inductive LinkDeviceError where
  | nlError (e : Nat)
deriving DecidableEq

/-- `Socket::add_device`, lines 177-182: open a fresh route socket, send the
link-add message, block on its acknowledgment.  The session is untouched. -/
def add_device (s : Session) (ifname : String) (ack : Except Nat Unit) :
    RouteCall (List LinkMsg × Except LinkDeviceError Unit) :=
  { session := s, opened := [.route],
    result := ([{ ifname := ifname, op := .add }],
      match ack with
      | .ok _ => .ok ()
      | .error e => .error (.nlError e)) }

/-- `Socket::del_device`, lines 184-189: open a fresh route socket, send the
link-delete message, block on its acknowledgment.  The session is
untouched. -/
def del_device (s : Session) (ifname : String) (ack : Except Nat Unit) :
    RouteCall (List LinkMsg × Except LinkDeviceError Unit) :=
  { session := s, opened := [.route],
    result := ([{ ifname := ifname, op := .delete }],
      match ack with
      | .ok _ => .ok ()
      | .error e => .error (.nlError e)) }

/-- One attribute of a route-netlink link response (lines 162-171): an
interface-name attribute whose payload has already gone through
`String::from_utf8` (`Except.error` is a UTF-8 conversion failure), or any
other attribute, which the match at lines 164-170 ignores. -/
inductive RtAttr where
  | ifname (utf8 : Except Unit String)
  | other
deriving DecidableEq

/-- One message of the route-netlink dump response stream (lines 154-160):
Error marker, Done marker, or a link record with its attribute list. -/
inductive RtnlResponse where
  | errorMarker
  | done
  | link (attrs : List RtAttr)
deriving DecidableEq

/-- How a `list_device_names` call ends: the returned vector, an early
return with a UTF-8 conversion error (the `?` at line 168), or the process
abort of `panic!` at line 157. -/
inductive ListOutcome where
  | ok (names : List String)
  | utf8Error
  | panicked
deriving DecidableEq

/-- What a `list_device_names` call did: the interface names written to
standard output by the `println!` at line 168, in order, and the outcome. -/
structure ListResult where
  printed : List String
  outcome : ListOutcome
deriving DecidableEq

/-- The attribute loop of lines 163-171: print every well-formed
interface-name attribute; a UTF-8 failure aborts via `?`.  Returns the
printed names so far and whether the conversion failed. -/
def print_link_attrs : List String → List RtAttr → List String × Bool
  | acc, [] => (acc, false)
  | acc, .ifname (.ok s) :: rest => print_link_attrs (acc ++ [s]) rest
  | acc, .ifname (.error _) :: _ => (acc, true)
  | acc, .other :: rest => print_link_attrs acc rest

/-- The response loop of `list_device_names`, lines 154-174.  As in
`get_device`, `Except.error` stream elements model `iter.next()` returning
`Some(Err(e))`, on which the `while let Some(Ok(..))` exits; the loop end
falls through to `Ok(vec![])` at line 174. -/
def list_names_loop (printed : List String) :
    List (Except Nat RtnlResponse) → ListResult
  | [] => { printed := printed, outcome := .ok [] }
  | r :: rest =>
    match r with
    | .error _ => { printed := printed, outcome := .ok [] }
    | .ok .errorMarker => { printed := printed, outcome := .panicked }
    | .ok .done => { printed := printed, outcome := .ok [] }
    | .ok (.link attrs) =>
      match print_link_attrs printed attrs with
      | (acc, true) => { printed := acc, outcome := .utf8Error }
      | (acc, false) => list_names_loop acc rest

/-- `Socket::list_device_names`, lines 122-175: build the GETLINK dump
request, open a fresh route socket, send, run the response loop.  The
session is untouched. -/
def list_device_names (s : Session) (rs : List (Except Nat RtnlResponse)) :
    RouteCall ListResult :=
  { session := s, opened := [.route], result := list_names_loop [] rs }

example :
    (list_device_names ⟨0, 7⟩
      [Except.ok (.link [RtAttr.ifname (.ok "wg0")]), Except.ok .done]).result =
      { printed := ["wg0"], outcome := .ok [] } := by decide

example :
    (set_device (.ok [10, 20, 30]) (fun k => if k = 1 then .error 13 else .ok ())) =
      ([10, 20], .error (.nlError 13)) := by decide

/-! Helper lemmas about the response loop. -/

theorem run_dump_ok_payloads (ps : List DevicePayload) (d : Device)
    (rs : List (Except Nat NlResponse)) :
    run_dump (some d) (ps.map (fun p => Except.ok (NlResponse.payload p)) ++ rs) =
      run_dump (some (ps.foldl extend_device d)) rs := by
  induction ps generalizing d with
  | nil => rfl
  | cons p t ih =>
    simpa [run_dump] using ih (extend_device d p)

theorem run_dump_ne_invalid (rs : List (Except Nat NlResponse)) :
    ∀ dev, run_dump dev rs ≠ Except.error GetDeviceError.invalidInterfaceName := by
  induction rs with
  | nil =>
    intro dev
    cases dev <;> simp [run_dump, finish_dump]
  | cons r rest ih =>
    intro dev
    match r with
    | .error e => cases dev <;> simp [run_dump, finish_dump]
    | .ok .errorMarker => simp [run_dump]
    | .ok .done => cases dev <;> simp [run_dump, finish_dump]
    | .ok (.payload p) => cases dev <;> simpa [run_dump] using ih _

/-! Concrete fixtures used by the closed theorems below. -/

def keyA : List Nat := List.replicate 32 1

def keyB : List Nat := List.replicate 32 2

def mkPeer (k : List Nat) (ips : List AllowedIp) : Peer :=
  { public_key := k, preshared_key := none, endpoint := none,
    persistent_keepalive_interval := 0, last_handshake_time := 0,
    rx_bytes := 0, tx_bytes := 0, protocol_version := 1, allowed_ips := ips }

def ip1 : AllowedIp := { family := 4, addr := [10, 0, 0, 1], cidr_mask := 32 }

def ip2 : AllowedIp := { family := 4, addr := [10, 0, 0, 2], cidr_mask := 32 }

def ip3 : AllowedIp := { family := 4, addr := [10, 0, 0, 3], cidr_mask := 32 }

def ipB : AllowedIp := { family := 4, addr := [10, 0, 1, 1], cidr_mask := 32 }

/-- First dump payload: the full device, peer A carrying two allowed IPs. -/
def payload1 : DevicePayload :=
  { ifindex := 3, ifname := "wg0", private_key := none,
    public_key := some (List.replicate 32 9), listen_port := 51820,
    fwmark := 0, peers := [mkPeer keyA [ip1, ip2]] }

/-- Second dump payload: continues peer A with one more allowed IP, then
starts peer B with one allowed IP.  Its top-level fields differ from
`payload1` on purpose: a subsequent payload contributes only its peers. -/
def payload2 : DevicePayload :=
  { ifindex := 0, ifname := "", private_key := none, public_key := none,
    listen_port := 0, fwmark := 0,
    peers := [mkPeer keyA [ip3], mkPeer keyB [ipB]] }

/-- The device the three-payload dump must coalesce to: peer A with three
allowed IPs, then peer B with one. -/
def coalescedDevice : Device :=
  { parse_device payload1 with
    peers := [mkPeer keyA [ip1, ip2, ip3], mkPeer keyB [ipB]] }

/-! Claim theorems. -/

/-- C3: for every interface name of length 0 or length at least IFNAMSIZ,
`get_device` with `DeviceInterface::Name` fails with the invalid-name error
before any netlink message is sent; for every name of length in
[1, IFNAMSIZ-1] the validation succeeds and the request is sent (and the
response loop decides the result). -/
theorem c3_name_validation (s : Session) (name : String)
    (rs : List (Except Nat NlResponse)) :
    (¬(0 < name.utf8ByteSize ∧ name.utf8ByteSize < IFNAMSIZ) →
      get_device s (.name name) rs =
        { sent := [], result := .error .invalidInterfaceName }) ∧
    ((0 < name.utf8ByteSize ∧ name.utf8ByteSize < IFNAMSIZ) →
      (get_device s (.name name) rs).sent =
          [wgGetRequest s.family_id (.ifname name)] ∧
      (get_device s (.name name) rs).result = run_dump none rs) := by
  constructor
  · intro h
    simp [get_device, h]
  · intro h
    simp [get_device, h]

/-- Witness for C3 at the empty name (invalid) and at "wg0" (valid). -/
theorem c3_name_validation_witness :
    get_device ⟨0, 7⟩ (.name "") [] =
        { sent := [], result := .error .invalidInterfaceName } ∧
    (get_device ⟨0, 7⟩ (.name "wg0") []).sent = [wgGetRequest 7 (.ifname "wg0")] :=
  ⟨(c3_name_validation ⟨0, 7⟩ "" []).1 (by decide),
   ((c3_name_validation ⟨0, 7⟩ "wg0" []).2 (by decide)).1⟩

/-- C4: a dump response stream of any number of payloads followed by the
kernel Error marker makes `get_device` return the access error, never a
partial Device — also when no payload preceded the marker. -/
theorem c4_error_marker_aborts (s : Session) (i : Nat) (ps : List DevicePayload)
    (rest : List (Except Nat NlResponse)) :
    (get_device s (.index i)
        (ps.map (fun p => Except.ok (NlResponse.payload p)) ++
          Except.ok NlResponse.errorMarker :: rest)).result =
      Except.error GetDeviceError.accessError := by
  show run_dump none _ = _
  match ps with
  | [] => rfl
  | p :: t =>
    show run_dump (some (parse_device p))
        (t.map (fun p => Except.ok (NlResponse.payload p)) ++
          Except.ok NlResponse.errorMarker :: rest) = _
    rw [run_dump_ok_payloads]
    rfl

/-- C5 (amended): the invalid interface name and the kernel Error marker end
the call with an error; but a transport decode failure silently ends the
response loop (the `while let Some(Ok(..))` pattern treats `Some(Err(..))`
like end of stream): with no prior payload the call fails with the access
error, while after at least one payload the partially parsed Device is
returned as a success value. -/
theorem c5_failure_modes (s : Session) (i e : Nat) (ps : List DevicePayload)
    (rest rs : List (Except Nat NlResponse)) :
    (get_device s (.name "") rs).result = .error .invalidInterfaceName ∧
    (get_device s (.name "") rs).sent = [] ∧
    (get_device s (.index i) (Except.ok NlResponse.errorMarker :: rs)).result =
      .error .accessError ∧
    (get_device s (.index i)
        (ps.map (fun p => Except.ok (NlResponse.payload p)) ++
          Except.error e :: rest)).result =
      (match ps with
       | [] => Except.error GetDeviceError.accessError
       | p :: t => Except.ok (t.foldl extend_device (parse_device p))) := by
  refine ⟨rfl, rfl, rfl, ?_⟩
  show run_dump none _ = _
  match ps with
  | [] => rfl
  | p :: t =>
    show run_dump (some (parse_device p))
        (t.map (fun p => Except.ok (NlResponse.payload p)) ++
          Except.error e :: rest) = _
    rw [run_dump_ok_payloads]
    rfl

/-- Counterexample to C5 as stated: on the stream [payload, decode failure]
the call succeeds with the partially parsed Device instead of ending with an
error — the `while let Some(Ok(response))` loop of line 96 silently swallows
the malformed response and line 110 finds an accumulated device. -/
theorem c5_decode_failure_returns_partial_device :
    (get_device ⟨0, 7⟩ (.index 3)
        [Except.ok (NlResponse.payload payload1), Except.error 22]).result =
      Except.ok (parse_device payload1) := by decide

/-- C6 (amended): if the dump stream ends (Done marker or stream exhaustion)
with no device payloads, `get_device` fails with
`GetDeviceError::AccessError` — the same error that is used for the kernel
Error marker — rather than returning a Device; there is no distinct
no-such-device error. -/
theorem c6_empty_dump_fails_with_access_error (s : Session) (i : Nat)
    (rest : List (Except Nat NlResponse)) :
    (get_device s (.index i) []).result = .error .accessError ∧
    (get_device s (.index i) (Except.ok NlResponse.done :: rest)).result =
      .error .accessError :=
  ⟨rfl, rfl⟩

/-- Counterexample to C6 as stated: an empty dump (Done, no payloads) fails
with exactly the same `GetDeviceError::AccessError` value that a kernel
Error marker produces (line 110 reuses `AccessError`); `GetDeviceError` as
constructed by `socket.rs` has no no-such-device variant, so the claimed
no-such-device error does not exist. -/
theorem c6_no_distinct_missing_device_error :
    (get_device ⟨0, 7⟩ (.index 3) [Except.ok NlResponse.done]).result =
        Except.error GetDeviceError.accessError ∧
    (get_device ⟨0, 7⟩ (.index 3) [Except.ok NlResponse.errorMarker]).result =
        Except.error GetDeviceError.accessError := by decide

/-- C10: for every u32 index, `get_device` with `DeviceInterface::Index`
performs no local validation — the request is always sent — and the
invalid-interface-name error is unreachable on this variant. -/
theorem c10_index_no_validation (s : Session) (i : Nat)
    (rs : List (Except Nat NlResponse)) :
    (get_device s (.index i) rs).sent = [wgGetRequest s.family_id (.ifindex i)] ∧
    (get_device s (.index i) rs).result ≠
      Except.error GetDeviceError.invalidInterfaceName :=
  ⟨rfl, run_dump_ne_invalid rs none⟩

/-- C1: coalescing a dump split across messages — a later payload whose
first peer repeats the public key of the last peer of the snapshot extends
that peer's allowed-IP list without duplicating the peer record, other peers
are appended as new; and the concrete three-payload dump
[A(2 ips)], [A continuation(1 ip), B(1 ip)], [Done] yields exactly the
device with peers A (3 ips) and B (1 ip), keeping the top-level attributes
of the first payload. -/
theorem c1_multi_message_coalescing (d : Device) (p : DevicePayload) (lp q : Peer)
    (rest : List Peer) (hlast : d.peers.getLast? = some lp)
    (hp : p.peers = q :: rest) :
    (q.public_key = lp.public_key →
      (extend_device d p).peers =
        d.peers.dropLast ++
          ({ lp with allowed_ips := lp.allowed_ips ++ q.allowed_ips } :: rest)) ∧
    (q.public_key ≠ lp.public_key →
      (extend_device d p).peers = d.peers ++ p.peers) ∧
    (get_device ⟨0, 7⟩ (.index 3)
        [Except.ok (NlResponse.payload payload1),
         Except.ok (NlResponse.payload payload2),
         Except.ok NlResponse.done]).result = Except.ok coalescedDevice := by
  refine ⟨?_, ?_, by decide⟩
  · intro hkey
    simp [extend_device, coalesce_peers, hlast, hp, hkey]
  · intro hkey
    simp [extend_device, coalesce_peers, hlast, hp, hkey]

/-- Witness for C1 at the concrete continuation payload. -/
theorem c1_multi_message_coalescing_witness :
    (extend_device (parse_device payload1) payload2).peers =
      (parse_device payload1).peers.dropLast ++
        ({ mkPeer keyA [ip1, ip2] with
            allowed_ips :=
              (mkPeer keyA [ip1, ip2]).allowed_ips ++
                (mkPeer keyA [ip3]).allowed_ips } :: [mkPeer keyB [ipB]]) ∧
    (get_device ⟨0, 7⟩ (.index 3)
        [Except.ok (NlResponse.payload payload1),
         Except.ok (NlResponse.payload payload2),
         Except.ok NlResponse.done]).result = Except.ok coalescedDevice := by
  have h := c1_multi_message_coalescing (parse_device payload1) payload2
    (mkPeer keyA [ip1, ip2]) (mkPeer keyA [ip3]) [mkPeer keyB [ipB]]
    (by decide) (by decide)
  exact ⟨h.1 rfl, h.2.2⟩

/-! Helper lemmas about the set loop. -/

theorem set_device_loop_all_ok (acks : Nat → Except Nat Unit)
    (h : ∀ j, acks j = Except.ok ()) :
    ∀ (msgs : List Nat) (b : Nat), set_device_loop acks b msgs = (msgs, Except.ok ()) := by
  intro msgs
  induction msgs with
  | nil => intro b; rfl
  | cons m rest ih =>
    intro b
    simp [set_device_loop, h b, ih (b + 1)]

theorem set_device_loop_fail (acks : Nat → Except Nat Unit) (e : Nat) :
    ∀ (k b : Nat) (msgs : List Nat),
      (∀ j, j < k → acks (b + j) = Except.ok ()) →
      acks (b + k) = Except.error e →
      k < msgs.length →
      set_device_loop acks b msgs =
        (msgs.take (k + 1), Except.error (SetDeviceError.nlError e)) := by
  intro k
  induction k with
  | zero =>
    intro b msgs _ hk hlen
    match msgs with
    | [] => simp at hlen
    | m :: rest =>
      simp [set_device_loop, show acks b = Except.error e from hk]
  | succ k ih =>
    intro b msgs hprev hk hlen
    match msgs with
    | [] => simp at hlen
    | m :: rest =>
      have h0 : acks b = Except.ok () := by
        simpa using hprev 0 (Nat.succ_pos k)
      have hr := ih (b + 1) rest
        (fun j hj => by
          have heq : b + 1 + j = b + (j + 1) := by omega
          rw [heq]
          exact hprev (j + 1) (Nat.succ_lt_succ hj))
        (by
          have heq : b + 1 + k = b + (k + 1) := by omega
          rw [heq]
          exact hk)
        (by simpa using Nat.lt_of_succ_lt_succ hlen)
      simp [set_device_loop, h0, hr]

/-- C2 (amended): `set_device` sends the planned messages strictly in
emission order with a synchronous acknowledgment per message; if the
acknowledgment of message k fails, the call fails at once with the converted
acknowledgment error — which carries no message index, since the `?`
conversion at line 116 sees only the transport error value — and no message
after k is ever sent (exactly the messages 0..k went out); if every
acknowledgment succeeds, all messages are sent in order. -/
theorem c2_sequential_send_ack (msgs : List Nat) (acks : Nat → Except Nat Unit)
    (k e : Nat) :
    ((∀ j, j < k → acks j = Except.ok ()) → acks k = Except.error e →
        k < msgs.length →
        set_device (.ok msgs) acks =
          (msgs.take (k + 1), Except.error (SetDeviceError.nlError e))) ∧
    ((∀ j, acks j = Except.ok ()) →
        set_device (.ok msgs) acks = (msgs, Except.ok ())) := by
  constructor
  · intro h1 h2 h3
    exact set_device_loop_fail acks e k 0 msgs
      (fun j hj => by rw [Nat.zero_add]; exact h1 j hj)
      (by rw [Nat.zero_add]; exact h2) h3
  · intro h
    exact set_device_loop_all_ok acks h msgs 0

/-- Witness for C2: three messages whose second acknowledgment fails, and
three messages that all get acknowledged. -/
theorem c2_sequential_send_ack_witness :
    set_device (.ok [10, 20, 30])
        (fun j => if j = 1 then Except.error 13 else Except.ok ()) =
      ([10, 20], Except.error (SetDeviceError.nlError 13)) ∧
    set_device (.ok [10, 20, 30]) (fun _ => Except.ok ()) =
      ([10, 20, 30], Except.ok ()) := by
  constructor
  · exact (c2_sequential_send_ack [10, 20, 30]
        (fun j => if j = 1 then Except.error 13 else Except.ok ()) 1 13).1
      (by
        intro j hj
        have hj0 : j = 0 := by omega
        subst hj0
        rfl)
      rfl (by decide)
  · exact (c2_sequential_send_ack [10, 20, 30] (fun _ => Except.ok ()) 0 0).2
      (fun _ => rfl)

/-- Counterexample to C2 as stated: two runs of the same three-message plan,
one whose acknowledgment fails at message index 0 and one at index 1, return
the identical error value — the returned error does not identify which
message index failed (the differing sent prefixes show the failing indices
differ). -/
theorem c2_error_does_not_identify_index :
    (set_device (.ok [10, 20, 30])
        (fun j => if j = 0 then Except.error 13 else Except.ok ())).2 =
      (set_device (.ok [10, 20, 30])
        (fun j => if j = 1 then Except.error 13 else Except.ok ())).2 ∧
    (set_device (.ok [10, 20, 30])
        (fun j => if j = 0 then Except.error 13 else Except.ok ())).1 = [10] ∧
    (set_device (.ok [10, 20, 30])
        (fun j => if j = 1 then Except.error 13 else Except.ok ())).1 = [10, 20] :=
  ⟨rfl, rfl, rfl⟩

/-- C7 evaluated at the failing input: a dump response carrying one link
record named "wg0" followed by Done makes `list_device_names` print the name
(line 168) yet return the empty vector (`Ok(vec![])`, line 174) — not the
ordered name sequence the claim states. -/
theorem c7_list_device_names_returns_empty :
    list_device_names ⟨0, 7⟩
        [Except.ok (RtnlResponse.link [RtAttr.ifname (Except.ok "wg0")]),
         Except.ok RtnlResponse.done] =
      { session := ⟨0, 7⟩, opened := [NlFamily.route],
        result := { printed := ["wg0"], outcome := ListOutcome.ok [] } } := by
  decide

/-- C8 evaluated at the failing input: a response stream whose first
terminal is the kernel Error marker drives `list_device_names` into the
`panic!("err")` arm of line 157 — the process aborts instead of a typed
error result being returned. -/
theorem c8_error_marker_panics :
    (list_device_names ⟨0, 7⟩ [Except.ok RtnlResponse.errorMarker]).result =
      { printed := [], outcome := ListOutcome.panicked } := by
  decide

/-- C9: every route-netlink operation opens exactly one fresh route-family
socket for that single call and leaves the session — the generic-netlink
socket handle and the resolved family id — unchanged. -/
theorem c9_route_ops_fresh_socket (s : Session) (n1 n2 : String)
    (a1 a2 : Except Nat Unit) (rs : List (Except Nat RtnlResponse)) :
    ((list_device_names s rs).session = s ∧
      (list_device_names s rs).opened = [NlFamily.route]) ∧
    ((add_device s n1 a1).session = s ∧
      (add_device s n1 a1).opened = [NlFamily.route]) ∧
    ((del_device s n2 a2).session = s ∧
      (del_device s n2 a2).opened = [NlFamily.route]) :=
  ⟨⟨rfl, rfl⟩, ⟨rfl, rfl⟩, ⟨rfl, rfl⟩⟩
